import Mathlib

/-!
Shallow embedding of `revoco.c`, a command-line utility that reconfigures the
scroll wheel of a Logitech MX-Revolution mouse over the hiddev interface.

C strings are modelled as `List Char` (the portion before the NUL terminator).
C `int`/`long` values are modelled as `Int`; the values handled by the program
are small, so no overflow reduction is needed.  Device I/O is modelled as a
trace of `Action` values; device responses are supplied as oracle arguments.
-/

namespace Revoco

/-- The char list of a string literal (a C string without its terminator). -/
def cstr (s : String) : List Char := s.data

/-- C `strneq(tok, p, strlen p)`: `p` is a prefix of `tok`. -/
def hasPref : List Char → List Char → Bool
  | [], _ => true
  | _ :: _, [] => false
  | p :: ps, c :: cs => p = c && hasPref ps cs

/-- C `isspace` on the default locale, as used by `strtol`. -/
def isSpaceC (c : Char) : Bool :=
  c = ' ' || c = '\t' || c = '\n' || c = '\r' || c = Char.ofNat 11 || c = Char.ofNat 12

/-- Numeric value of a digit character, uninterpreted base. -/
def digitVal (c : Char) : Option Nat :=
  if '0' ≤ c && c ≤ '9' then some (c.toNat - 48)
  else if 'a' ≤ c && c ≤ 'z' then some (c.toNat - 87)
  else if 'A' ≤ c && c ≤ 'Z' then some (c.toNat - 55)
  else none

/-- Consume digits of the given base: accumulated value, number of digits
consumed, and the rest of the input. -/
def takeDigits (base : Nat) : List Char → Nat → Nat × Nat × List Char
  | [], acc => (acc, 0, [])
  | c :: cs, acc =>
    match digitVal c with
    | some d =>
      if d < base then
        let r := takeDigits base cs (acc * base + d)
        (r.1, r.2.1 + 1, r.2.2)
      else (acc, 0, c :: cs)
    | none => (acc, 0, c :: cs)

/-- Result of `strtol`: value, number of digits consumed, and the end pointer
(the original input when no digits were consumed, as in C). -/
structure StrtolRes where
  val : Int
  ndigits : Nat
  rest : List Char
  deriving Repr, DecidableEq

/-- C `strtol(s, &end, 0)`: optional whitespace and sign, then hex (`0x`),
octal (leading `0`) or decimal digits. -/
def strtol (s : List Char) : StrtolRes :=
  let t := s.dropWhile isSpaceC
  let signed : Bool × List Char :=
    match t with
    | '-' :: r => (true, r)
    | '+' :: r => (false, r)
    | r => (false, r)
  let core : Nat × Nat × List Char :=
    match signed.2 with
    | '0' :: x :: r =>
      if (x = 'x' || x = 'X') &&
          (match r with
           | d :: _ => (digitVal d).any (fun n => n < 16)
           | [] => false) then
        takeDigits 16 r 0
      else takeDigits 8 ('0' :: x :: r) 0
    | u => takeDigits 10 u 0
  if core.2.1 = 0 then ⟨0, 0, s⟩
  else ⟨if signed.1 then -(core.1 : Int) else (core.1 : Int), core.2.1, core.2.2⟩

/-- Lowercase hex digits of a natural number, `%x` style. -/
def hexStr (n : Nat) : List Char := Nat.toDigits 16 n

/-- C `%02x` of an `int` (converted through `unsigned int`). -/
def hex02 (v : Int) : String :=
  let u := (v % 4294967296).toNat
  String.mk (if u < 16 then '0' :: hexStr u else hexStr u)

/-- Message of `fatal("bad argument ...", str, prefix)` in `onearg`. -/
def badArgMsg (s : List Char) (c : Char) : String :=
  "revoco: bad argument " ++ String.mk s ++ ": " ++ String.mk [c] ++ " expected"

/-- Message of `fatal("argument ... out of range ...")` in `onearg`; `sp` is
the consumed span of the input. -/
def rangeMsg (sp : List Char) (mn mx : Int) : String :=
  "revoco: argument " ++ String.mk sp ++ " out of range (" ++ toString mn ++ "-" ++ toString mx ++ ")"

/-- Message of `fatal("malformed argument ...")` in `twoargs` / `nargs`. -/
def malformedMsg (s : List Char) : String :=
  "revoco: malformed argument " ++ String.mk s

/-- Message of `fatal("unknown option ...")` in `configure`. -/
def unknownMsg (tok : List Char) : String :=
  "revoco: unknown option " ++ String.mk tok

/-- C `onearg(str, prefix, &arg, def, min, max)`: parses one delimited numeric
field.  Returns the parsed (or defaulted) value and the rest of the input, or
the fatal error message. -/
def onearg (s : List Char) (pfx : Char) (dflt mn mx : Int) : Except String (Int × List Char) :=
  match s with
  | [] => .ok (dflt, [])
  | c :: rest =>
    if c = pfx then
      let r := strtol rest
      if r.ndigits = 0 then .ok (dflt, r.rest)
      else if r.val < mn ∨ r.val > mx then
        .error (rangeMsg (rest.take (rest.length - r.rest.length)) mn mx)
      else .ok (r.val, r.rest)
    else .error (badArgMsg (c :: rest) pfx)

/-- C `twoargs(str, &arg1, &arg2, def, min, max)`: `=`-introduced first field,
`,`-introduced second field defaulting to the first, no trailing garbage. -/
def twoargs (s : List Char) (dflt mn mx : Int) : Except String (Int × Int) :=
  match onearg s '=' dflt mn mx with
  | .error m => .error m
  | .ok (a1, p) =>
    match onearg p ',' a1 mn mx with
    | .error m => .error m
    | .ok (a2, p2) => if p2 = [] then .ok (a1, a2) else .error (malformedMsg s)

/-- Loop body of C `nargs`: remaining input, current delimiter, remaining
iterations, count of non-empty positions so far. -/
def nargsAux (orig : List Char) (dflt mn mx : Int) :
    List Char → Char → Nat → Nat → Except String (Nat × List Int)
  | p, _, 0, i => if p = [] then .ok (i, []) else .error (malformedMsg orig)
  | p, del, Nat.succ n, i =>
    let i' := if p = [] then i else i + 1
    match onearg p del dflt mn mx with
    | .error m => .error m
    | .ok (a, p') =>
      match nargsAux orig dflt mn mx p' ',' n i' with
      | .error m => .error m
      | .ok (cnt, buf) => .ok (cnt, a :: buf)

/-- C `nargs(str, buf, n, def, min, max)`: parses up to `n` fields, returning
the count of positions that still had input and the full defaulted buffer. -/
def nargs (s : List Char) (n : Nat) (dflt mn mx : Int) : Except String (Nat × List Int) :=
  nargsAux s dflt mn mx s '=' n 0

/-- One observable device/terminal operation performed by the program.
`sendReport id buf n` is `send_report(fd, id, buf, n)` (including its internal
3000 ms flush); `queryReport id n` is `query_report(fd, id, buf, n)`;
`dumpEvents t` abstracts the event-printing loop of the `dump` token. -/
inductive Action where
  | sendReport (id : Int) (buf : List Int) (n : Int)
  | queryReport (id : Int) (n : Int)
  | print (s : String)
  | waitReport (timeout : Int)
  | dumpEvents (timeout : Int)
  | sleepA (secs : Int)
  deriving Repr, DecidableEq

/-- C `send_report` copies `buf[0..n-1]` into the usage ref; the loop
`for (i = 0; i < n; ++i)` copies nothing when `n` is negative. -/
def send_report_values (buf : List Int) (n : Int) : List Int :=
  buf.take n.toNat

/-- C `mx_cmd(fd, b1, b2, b3)`: the 6-byte command frame sent as report 0x10,
with the protocol-variant leading byte `fb` (the global `first_byte`). -/
def mx_cmd (fb b1 b2 b3 : Int) : Action :=
  Action.sendReport 0x10 [fb, 0x80, 0x56, b1, b2, b3] 6

/-- Message of `printf("bad answer ...")` in `mx_query`. -/
def badAnswerMsg (r0 r1 r2 : Int) : String :=
  "bad answer (" ++ hex02 r0 ++ " " ++ hex02 r1 ++ " " ++ hex02 r2 ++ "...)"

/-- Result of `mx_query`: actions performed, the C return value (1 as `true`,
0 as `false`), and the read-back frame. -/
structure QueryRes where
  acts : List Action
  ok : Bool
  res : List Int
  deriving Repr, DecidableEq

/-- C `mx_query(fd, b1, res)`: sends `[first_byte, 0x81, b1, 0, 0, 0]` as
report 0x10, reads 6 bytes back (`resp`, the device oracle), and validates the
echoed header bytes. -/
def mx_query (fb b1 : Int) (resp : List Int) : QueryRes :=
  let send := Action.sendReport 0x10 [fb, 0x81, b1, 0, 0, 0] 6
  let qr := Action.queryReport 0x10 6
  let r0 := resp.getD 0 0
  let r1 := resp.getD 1 0
  let r2 := resp.getD 2 0
  if r0 ≠ 1 ∨ r1 ≠ 0x81 ∨ r2 ≠ b1 then
    { acts := [send, qr, Action.print (badAnswerMsg r0 r1 r2)], ok := false, res := resp }
  else
    { acts := [send, qr], ok := true, res := resp }

/-- Battery status string selected by the `switch (buf[5])` of the battery
token. -/
def batteryStatus (b : Int) : String :=
  if b = 0x30 then "running on battery"
  else if b = 0x50 then "charging"
  else if b = 0x90 then "fully charged"
  else "status " ++ hex02 b

/-- The `printf("battery level ...")` line of the battery token: percentage
from `buf[3]`, status from `buf[5]`. -/
def batteryMsg (res : List Int) : String :=
  "battery level " ++ toString (res.getD 3 0) ++ "%, " ++ batteryStatus (res.getD 5 0)

/-- The `printf` lines following the reconnect command. -/
def reconnectPrints : List Action :=
  [Action.print "Reconnection initiated",
   Action.print " - Turn off the mouse",
   Action.print " - Press and hold the left mouse button",
   Action.print " - Turn on the mouse",
   Action.print " - Press the right button 5 times",
   Action.print " - Release the left mouse button"]

/-- The `printf("report %02x: ...")` line of the debug query token. -/
def reportMsg (id len : Int) (resp : List Int) : String :=
  "report " ++ hex02 id ++ ":" ++
    String.join ((List.range len.toNat).map (fun j => " " ++ hex02 (resp.getD j 0)))

/-- Propagation of a `fatal` raised inside an argument parser: the process
terminates, so the rest of the step is not reached. -/
def caseTwo {α : Type} (t : Except String (Int × Int)) (f : Int → Int → Except String α) :
    Except String α :=
  match t with
  | .error m => .error m
  | .ok (a1, a2) => f a1 a2

/-- As `caseTwo`, for the `nargs` parser of the raw token. -/
def caseN {α : Type} (t : Except String (Nat × List Int)) (f : Nat → List Int → Except String α) :
    Except String α :=
  match t with
  | .error m => .error m
  | .ok (cnt, buf) => f cnt buf

/-- One iteration of the token loop of C `configure`: dispatch of `argv[i]`
(here `tok`).  `fb` is the global `first_byte`; `resp` is the device oracle
consumed by tokens that read an input report.  `Except.error` models `fatal`
(message printed to stderr, process exits with status 1). -/
def configStep (fb : Int) (tok : List Char) (resp : List Int) : Except String (List Action) :=
  let stripped := hasPref (cstr "temp-") tok
  let perm : Int := if stripped then 0 else 0x80
  let cmd : List Char := if stripped then tok.drop 5 else tok
  if cmd = cstr "free" then .ok [mx_cmd fb (perm + 1) 0 0]
  else if cmd = cstr "click" then .ok [mx_cmd fb (perm + 2) 0 0]
  else if hasPref (cstr "manual") cmd then
    caseTwo (twoargs (cmd.drop 6) 0 0 15) (fun a1 a2 =>
      if a1 ≠ a2 then .ok [mx_cmd fb (perm + 7) (a1 * 16 + a2) 0]
      else .ok [mx_cmd fb (perm + 8) a1 0])
  else if hasPref (cstr "auto") cmd then
    caseTwo (twoargs (cmd.drop 4) 0 0 50) (fun a1 a2 => .ok [mx_cmd fb (perm + 5) a1 a2])
  else if hasPref (cstr "soft-free") tok then
    caseTwo (twoargs (tok.drop 9) 0 0 255) (fun a1 a2 => .ok [mx_cmd fb 3 a1 a2])
  else if hasPref (cstr "soft-click") tok then
    caseTwo (twoargs (tok.drop 10) 0 0 255) (fun a1 a2 => .ok [mx_cmd fb 4 a1 a2])
  else if hasPref (cstr "reconnect") tok then
    caseTwo (twoargs (tok.drop 9) 0 0 255) (fun _ _ =>
      .ok ([Action.sendReport 0x10 [0xff, 0x80, 0xb2, 1, 0, 0] 6] ++ reconnectPrints ++
           [Action.waitReport 60000]))
  else if hasPref (cstr "mode") tok then
    let q := mx_query fb 0x08 resp
    .ok (q.acts ++
      if q.ok then
        [Action.print (if (q.res.getD 5 0) % 2 ≠ 0 then "click-by-click" else "free spinning")]
      else [])
  else if hasPref (cstr "battery") tok then
    let q := mx_query fb 0x0d resp
    .ok (q.acts ++ if q.ok then [Action.print (batteryMsg q.res)] else [])
  else if hasPref (cstr "raw") tok then
    caseN (nargs (tok.drop 3) 256 0 0 255) (fun cnt buf =>
      .ok [Action.sendReport (buf.getD 0 0) (buf.drop 1) ((cnt : Int) - 1)])
  else if hasPref (cstr "query") tok then
    caseTwo (twoargs (tok.drop 5) (-1) 0 255) (fun a1 a2 =>
      let id := if a1 = -1 then 0x10 else a1
      let len := if a1 = -1 then 6 else a2
      .ok [Action.queryReport id len, Action.print (reportMsg id len resp)])
  else if hasPref (cstr "dump") tok then
    caseTwo (twoargs (cmd.drop 4) 3 (-1) 86400) (fun a1 _ =>
      .ok [Action.dumpEvents (if a1 > 0 then a1 * 1000 else a1)])
  else if hasPref (cstr "sleep") tok then
    caseTwo (twoargs (tok.drop 5) 1 0 255) (fun a1 _ => .ok [Action.sleepA a1])
  else .error (unknownMsg tok)

/-- The guard disjunction of the `configure` dispatch chain: tokens that do
not reach the final `fatal("unknown option ...")`. -/
def recognizedTok (tok : List Char) : Bool :=
  let cmd : List Char := if hasPref (cstr "temp-") tok then tok.drop 5 else tok
  cmd = cstr "free" || cmd = cstr "click" ||
  hasPref (cstr "manual") cmd || hasPref (cstr "auto") cmd ||
  hasPref (cstr "soft-free") tok || hasPref (cstr "soft-click") tok ||
  hasPref (cstr "reconnect") tok || hasPref (cstr "mode") tok ||
  hasPref (cstr "battery") tok || hasPref (cstr "raw") tok ||
  hasPref (cstr "query") tok || hasPref (cstr "dump") tok ||
  hasPref (cstr "sleep") tok

/-- Outcome of processing the token list: actions performed and, when a
`fatal` was reached, its message (the process then exits with status 1). -/
structure RunResult where
  trace : List Action
  fatalMsg : Option String
  deriving Repr, DecidableEq

/-- The token loop of C `configure` over `argv[1..]`, each token paired with
the device-response oracle for its (single possible) input-report read. -/
def configureRun (fb : Int) : List (List Char × List Int) → RunResult
  | [] => ⟨[], none⟩
  | (tok, resp) :: rest =>
    match configStep fb tok resp with
    | .error m => ⟨[], some m⟩
    | .ok acts =>
      let r := configureRun fb rest
      ⟨acts ++ r.trace, r.fatalMsg⟩

/-- Exit status of the process after `configure`: 1 on any `fatal`, else the
`exit(0)` at the end of `main`. -/
def runExit (fb : Int) (args : List (List Char × List Int)) : Nat :=
  if (configureRun fb args).fatalMsg.isSome then 1 else 0

example : twoargs (cstr "=3,5") 0 0 15 = .ok (3, 5) := by rfl
example : twoargs (cstr "=10") 0 0 50 = .ok (10, 10) := by rfl
example : twoargs (cstr "") 0 0 50 = .ok (0, 0) := by rfl
example : twoargs (cstr "=16") 0 0 15 = .error (rangeMsg (cstr "16") 0 15) := by rfl
example : twoargs (cstr "=0x10") 0 0 255 = .ok (16, 16) := by rfl
example : nargs (cstr "") 4 0 0 255 = .ok (0, [0, 0, 0, 0]) := by rfl
example : nargs (cstr "=16,1,2") 4 0 0 255 = .ok (3, [16, 1, 2, 0]) := by rfl
example : hex02 42 = "2a" := by rfl
example : hex02 0 = "00" := by rfl

/-- What the enumeration loop of `open_dev` finds at one path/index expansion:
the `open` fails, the open succeeds but `HIDIOCGDEVINFO` fails, or the ioctl
yields a device-info record with the given vendor and product fields. -/
inductive Node where
  | absent
  | noInfo
  | dev (vendor product : Int)
  deriving Repr, DecidableEq

/-- Observable events of the enumeration: a successful `open`, the matching
`close`, and the experimental-support notice printed for the MX-5500. -/
inductive DevEvent where
  | openOk (i : Nat)
  | closeFd (i : Nat)
  | note
  deriving Repr, DecidableEq

/-- Value of a C `short` holding the low 16 bits of `n` (the `(short)` casts
and the `s16` struct fields in the vendor/product comparisons). -/
def sext16 (n : Int) : Int := (n + 32768) % 65536 - 32768

/-- The `for (i = 0; i < 16; ++i)` loop of C `open_dev`, from index `i` with
`fuel` iterations left: the event trace and, on success, the index together
with the `first_byte` value in force at the `return` (1, or 2 for the
MX-5500 after its notice). -/
def openDevAux (nodes : Nat → Node) : Nat → Nat → List DevEvent × Option (Nat × Int)
  | _, 0 => ([], none)
  | i, fuel + 1 =>
    match nodes i with
    | .absent => openDevAux nodes (i + 1) fuel
    | .noInfo =>
      let r := openDevAux nodes (i + 1) fuel
      (DevEvent.openOk i :: DevEvent.closeFd i :: r.1, r.2)
    | .dev v p =>
      if sext16 v = sext16 0x046d then
        if sext16 p = sext16 0xc51a then ([DevEvent.openOk i], some (i, 1))
        else if sext16 p = sext16 0xc525 then ([DevEvent.openOk i], some (i, 1))
        else if sext16 p = sext16 0xc71c then
          ([DevEvent.openOk i, DevEvent.note], some (i, 2))
        else
          let r := openDevAux nodes (i + 1) fuel
          (DevEvent.openOk i :: DevEvent.closeFd i :: r.1, r.2)
      else
        let r := openDevAux nodes (i + 1) fuel
        (DevEvent.openOk i :: DevEvent.closeFd i :: r.1, r.2)

/-- C `open_dev(path)` for one path template, `nodes` giving the outcome of
each of the 16 index expansions. -/
def open_dev (nodes : Nat → Node) : List DevEvent × Option (Nat × Int) :=
  openDevAux nodes 0 16

/-- Whether one expansion holds a whitelisted device, and the `first_byte`
tag `open_dev` would return for it. -/
def devMatch : Node → Option Int
  | .dev v p =>
    if sext16 v = sext16 0x046d then
      if sext16 p = sext16 0xc51a then some 1
      else if sext16 p = sext16 0xc525 then some 1
      else if sext16 p = sext16 0xc71c then some 2
      else none
    else none
  | _ => none

/-- Every opened node is closed immediately, except the final returned one
(`keep`), whose `openOk` (possibly with the MX-5500 notice) ends the trace. -/
def wellClosed : List DevEvent → Option Nat → Bool
  | [], none => true
  | [DevEvent.openOk i], some j => i == j
  | [DevEvent.openOk i, DevEvent.note], some j => i == j
  | DevEvent.openOk i :: DevEvent.closeFd j :: tr, k => i == j && wellClosed tr k
  | _, _ => false

/-- Which branch of C `trouble_shooting` applies: a hiddev node opened (no
matching device), permission was denied, or the driver/nodes are missing. -/
inductive TsProbe where
  | opened
  | denied
  | missing
  deriving Repr, DecidableEq

/-- C `trouble_shooting`: every branch ends in `fatal`, so the message varies
but the exit status is always 1. -/
def trouble_shooting : TsProbe → String × Nat
  | .opened => ("revoco: No Logitech MX-Revolution found.", 1)
  | .denied => ("revoco: No permission to access hiddev. Try sudo revoco.", 1)
  | .missing => ("revoco: Hiddev kernel driver not found.", 1)

/-- C `main` after the usage check: scan `/dev/usb/hiddev%d` then
`/dev/hiddev%d`; on failure run `trouble_shooting` (always exit 1), otherwise
run `configure` with the selected handle and exit 0 (or 1 on a `fatal`). -/
def main_run (n1 n2 : Nat → Node) (ts : TsProbe) (args : List (List Char × List Int)) : Nat :=
  match (open_dev n1).2 with
  | some (_, fb) => runExit fb args
  | none =>
    match (open_dev n2).2 with
    | some (_, fb) => runExit fb args
    | none => (trouble_shooting ts).2

/-! Helper lemmas. -/

theorem caseTwo_ok {α : Type} (a1 a2 : Int) (t : Except String (Int × Int))
    (h : t = .ok (a1, a2)) (f : Int → Int → Except String α) :
    caseTwo t f = f a1 a2 := by
  subst h; rfl

theorem caseN_ok {α : Type} (cnt : Nat) (buf : List Int) (t : Except String (Nat × List Int))
    (h : t = .ok (cnt, buf)) (f : Nat → List Int → Except String α) :
    caseN t f = f cnt buf := by
  subst h; rfl

theorem caseTwo_err {α : Type} (m : String) (t : Except String (Int × Int))
    (h : t = .error m) (f : Int → Int → Except String α) :
    caseTwo t f = .error m := by
  subst h; rfl

theorem configStep_unknown (fb : Int) (tok : List Char) (resp : List Int)
    (h : recognizedTok tok = false) : configStep fb tok resp = .error (unknownMsg tok) := by
  unfold recognizedTok at h
  simp only [Bool.or_eq_false_iff, decide_eq_false_iff_not] at h
  obtain ⟨⟨⟨⟨⟨⟨⟨⟨⟨⟨⟨⟨h1, h2⟩, h3⟩, h4⟩, h5⟩, h6⟩, h7⟩, h8⟩, h9⟩, h10⟩, h11⟩, h12⟩, h13⟩ := h
  unfold configStep
  simp [h1, h2, h3, h4, h5, h6, h7, h8, h9, h10, h11, h12, h13]

theorem configureRun_cons (fb : Int) (tok : List Char) (resp : List Int)
    (rest : List (List Char × List Int)) (acts : List Action)
    (h : configStep fb tok resp = .ok acts) :
    configureRun fb ((tok, resp) :: rest) =
      ⟨acts ++ (configureRun fb rest).trace, (configureRun fb rest).fatalMsg⟩ := by
  simp only [configureRun, h]

theorem configureRun_append_fatal (fb : Int) :
    ∀ (pre : List (List Char × List Int)) (bad : List Char) (rb : List Int)
      (post : List (List Char × List Int)),
      (∀ tr ∈ pre, ∃ acts, configStep fb tr.1 tr.2 = .ok acts) →
      recognizedTok bad = false →
      configureRun fb (pre ++ (bad, rb) :: post) =
        ⟨(configureRun fb pre).trace, some (unknownMsg bad)⟩ ∧
      (configureRun fb pre).fatalMsg = none := by
  intro pre
  induction pre with
  | nil =>
    intro bad rb post _ hbad
    refine ⟨?_, rfl⟩
    simp [configureRun, configStep_unknown fb bad rb hbad]
  | cons hd tl ih =>
    intro bad rb post hok hbad
    obtain ⟨acts, hacts⟩ := hok hd (List.mem_cons_self hd tl)
    obtain ⟨h1, h2⟩ := ih bad rb post (fun tr htr => hok tr (List.mem_cons_of_mem hd htr)) hbad
    obtain ⟨tok, resp⟩ := hd
    have hrun := configureRun_cons fb tok resp tl acts hacts
    have hrun2 := configureRun_cons fb tok resp (tl ++ (bad, rb) :: post) acts hacts
    constructor
    · rw [List.cons_append, hrun2, h1, hrun, h2]
    · rw [hrun, h2]

theorem openDevAux_skip (nodes : Nat → Node) (k f : Nat)
    (hnm : devMatch (nodes k) = none) :
    (openDevAux nodes k (f + 1)).2 = (openDevAux nodes (k + 1) f).2 ∧
    (∀ e, e ∈ (openDevAux nodes (k + 1) f).1 → e ∈ (openDevAux nodes k (f + 1)).1) := by
  cases h : nodes k with
  | absent => simp [openDevAux, h]
  | noInfo =>
    constructor
    · simp [openDevAux, h]
    · intro e he
      simp only [openDevAux, h, List.mem_cons]
      exact Or.inr (Or.inr he)
  | dev v p =>
    rw [h] at hnm
    simp only [devMatch] at hnm
    by_cases h1 : sext16 v = sext16 0x046d
    · rw [if_pos h1] at hnm
      by_cases h2 : sext16 p = sext16 0xc51a
      · rw [if_pos h2] at hnm; exact absurd hnm (by simp)
      · rw [if_neg h2] at hnm
        by_cases h3 : sext16 p = sext16 0xc525
        · rw [if_pos h3] at hnm; exact absurd hnm (by simp)
        · rw [if_neg h3] at hnm
          by_cases h4 : sext16 p = sext16 0xc71c
          · rw [if_pos h4] at hnm; exact absurd hnm (by simp)
          · constructor
            · simp [openDevAux, h, h1, h2, h3, h4]
            · intro e he
              simp only [openDevAux, h, if_pos h1, if_neg h2, if_neg h3, if_neg h4,
                List.mem_cons]
              exact Or.inr (Or.inr he)
    · constructor
      · simp [openDevAux, h, h1]
      · intro e he
        simp only [openDevAux, h, if_neg h1, List.mem_cons]
        exact Or.inr (Or.inr he)

theorem openDevAux_hit (nodes : Nat → Node) (k f : Nat) (fb : Int)
    (hm : devMatch (nodes k) = some fb) :
    (openDevAux nodes k (f + 1)).2 = some (k, fb) ∧
      (fb = 2 → DevEvent.note ∈ (openDevAux nodes k (f + 1)).1) := by
  cases h : nodes k with
  | absent => rw [h] at hm; simp [devMatch] at hm
  | noInfo => rw [h] at hm; simp [devMatch] at hm
  | dev v p =>
    rw [h] at hm
    simp only [devMatch] at hm
    by_cases h1 : sext16 v = sext16 0x046d
    · rw [if_pos h1] at hm
      by_cases h2 : sext16 p = sext16 0xc51a
      · rw [if_pos h2] at hm
        obtain rfl := Option.some.inj hm
        constructor
        · simp [openDevAux, h, h1, h2]
        · intro hfb; exact absurd hfb (by norm_num)
      · rw [if_neg h2] at hm
        by_cases h3 : sext16 p = sext16 0xc525
        · rw [if_pos h3] at hm
          obtain rfl := Option.some.inj hm
          constructor
          · simp [openDevAux, h, h1, h2, h3]
          · intro hfb; exact absurd hfb (by norm_num)
        · rw [if_neg h3] at hm
          by_cases h4 : sext16 p = sext16 0xc71c
          · rw [if_pos h4] at hm
            obtain rfl := Option.some.inj hm
            constructor
            · simp only [openDevAux, h]
              rw [if_pos h1, if_neg h2, if_neg h3, if_pos h4]
            · intro _
              simp only [openDevAux, h]
              rw [if_pos h1, if_neg h2, if_neg h3, if_pos h4]
              simp
          · rw [if_neg h4] at hm; exact absurd hm (by simp)
    · rw [if_neg h1] at hm; exact absurd hm (by simp)

theorem openDevAux_wellClosed (nodes : Nat → Node) :
    ∀ fuel i, wellClosed (openDevAux nodes i fuel).1
      ((openDevAux nodes i fuel).2.map Prod.fst) = true := by
  intro fuel
  induction fuel with
  | zero => intro i; rfl
  | succ f ih =>
    intro i
    cases h : nodes i with
    | absent => simpa [openDevAux, h] using ih (i + 1)
    | noInfo => simp [openDevAux, h, wellClosed, ih (i + 1)]
    | dev v p =>
      by_cases h1 : sext16 v = sext16 0x046d
      · by_cases h2 : sext16 p = sext16 0xc51a
        · simp [openDevAux, h, h1, h2, wellClosed]
        · by_cases h3 : sext16 p = sext16 0xc525
          · simp [openDevAux, h, h1, h2, h3, wellClosed]
          · by_cases h4 : sext16 p = sext16 0xc71c
            · simp [openDevAux, h, h1, h2, h3, h4, wellClosed]
            · simp [openDevAux, h, h1, h2, h3, h4, wellClosed, ih (i + 1)]
      · simp [openDevAux, h, h1, wellClosed, ih (i + 1)]

theorem openDevAux_found (nodes : Nat → Node) :
    ∀ fuel k i fb, k ≤ i → i < k + fuel →
      devMatch (nodes i) = some fb →
      (∀ j, k ≤ j → j < i → devMatch (nodes j) = none) →
      (openDevAux nodes k fuel).2 = some (i, fb) ∧
        (fb = 2 → DevEvent.note ∈ (openDevAux nodes k fuel).1) := by
  intro fuel
  induction fuel with
  | zero => intro k i fb hki hik _ _; omega
  | succ f ih =>
    intro k i fb hki hik hm hnone
    rcases Nat.eq_or_lt_of_le hki with heq | hlt
    · subst heq
      exact openDevAux_hit nodes k f fb hm
    · have hs := openDevAux_skip nodes k f (hnone k (Nat.le_refl k) hlt)
      have hrec := ih (k + 1) i fb hlt (by omega) hm (fun j hj1 hj2 => hnone j (by omega) hj2)
      exact ⟨hs.1.trans hrec.1, fun hfb => hs.2 _ (hrec.2 hfb)⟩

theorem openDevAux_none (nodes : Nat → Node) :
    ∀ fuel k, (∀ j, k ≤ j → j < k + fuel → devMatch (nodes j) = none) →
      (openDevAux nodes k fuel).2 = none := by
  intro fuel
  induction fuel with
  | zero => intro k _; rfl
  | succ f ih =>
    intro k hnone
    have hs := openDevAux_skip nodes k f (hnone k (Nat.le_refl k) (by omega))
    exact hs.1.trans (ih (k + 1) (fun j hj1 hj2 => hnone j (by omega) (by omega)))

/-! Reduction of `configStep` on each mode-setting token shape, with the
argument text `sfx` left symbolic. -/

theorem configStep_manual_sfx (fb : Int) (r : List Int) (sfx : List Char) :
    configStep fb (cstr "manual" ++ sfx) r =
      caseTwo (twoargs sfx 0 0 15) (fun a1 a2 =>
        if a1 ≠ a2 then .ok [mx_cmd fb (0x80 + 7) (a1 * 16 + a2) 0]
        else .ok [mx_cmd fb (0x80 + 8) a1 0]) := rfl

theorem configStep_temp_manual_sfx (fb : Int) (r : List Int) (sfx : List Char) :
    configStep fb (cstr "temp-manual" ++ sfx) r =
      caseTwo (twoargs sfx 0 0 15) (fun a1 a2 =>
        if a1 ≠ a2 then .ok [mx_cmd fb 7 (a1 * 16 + a2) 0]
        else .ok [mx_cmd fb 8 a1 0]) := rfl

theorem configStep_auto_sfx (fb : Int) (r : List Int) (sfx : List Char) :
    configStep fb (cstr "auto" ++ sfx) r =
      caseTwo (twoargs sfx 0 0 50) (fun a1 a2 => .ok [mx_cmd fb (0x80 + 5) a1 a2]) := rfl

theorem configStep_temp_auto_sfx (fb : Int) (r : List Int) (sfx : List Char) :
    configStep fb (cstr "temp-auto" ++ sfx) r =
      caseTwo (twoargs sfx 0 0 50) (fun a1 a2 => .ok [mx_cmd fb 5 a1 a2]) := rfl

theorem configStep_soft_free_sfx (fb : Int) (r : List Int) (sfx : List Char) :
    configStep fb (cstr "soft-free" ++ sfx) r =
      caseTwo (twoargs sfx 0 0 255) (fun a1 a2 => .ok [mx_cmd fb 3 a1 a2]) := rfl

theorem configStep_soft_click_sfx (fb : Int) (r : List Int) (sfx : List Char) :
    configStep fb (cstr "soft-click" ++ sfx) r =
      caseTwo (twoargs sfx 0 0 255) (fun a1 a2 => .ok [mx_cmd fb 4 a1 a2]) := rfl

/-! Claim theorems. -/

/-- C2: for every sub-opcode `b1`, the mode/battery query sends the frame
`[leading_byte, 0x81, b1, 0, 0, 0]` as report 0x10, reads back 6 bytes, and
validates the echo: if byte0 is not 1, or byte1 is not 0x81, or byte2 is not
`b1`, it prints a bad-answer diagnostic and returns failure (0) without
terminating the process; when all three match it returns success (1) with the
read-back frame. -/
theorem c2_query_echo_validation (fb b1 : Int) (resp : List Int) :
    ((mx_query fb b1 resp).acts.take 2 =
      [Action.sendReport 0x10 [fb, 0x81, b1, 0, 0, 0] 6, Action.queryReport 0x10 6]) ∧
    (resp.getD 0 0 ≠ 1 ∨ resp.getD 1 0 ≠ 0x81 ∨ resp.getD 2 0 ≠ b1 →
      (mx_query fb b1 resp).ok = false ∧
      (mx_query fb b1 resp).acts =
        [Action.sendReport 0x10 [fb, 0x81, b1, 0, 0, 0] 6, Action.queryReport 0x10 6,
         Action.print (badAnswerMsg (resp.getD 0 0) (resp.getD 1 0) (resp.getD 2 0))]) ∧
    (resp.getD 0 0 = 1 ∧ resp.getD 1 0 = 0x81 ∧ resp.getD 2 0 = b1 →
      (mx_query fb b1 resp).ok = true ∧ (mx_query fb b1 resp).res = resp ∧
      (mx_query fb b1 resp).acts =
        [Action.sendReport 0x10 [fb, 0x81, b1, 0, 0, 0] 6, Action.queryReport 0x10 6]) ∧
    (∃ acts, configStep fb (cstr "mode") resp = .ok acts) ∧
    (∃ acts, configStep fb (cstr "battery") resp = .ok acts) := by
  have e : mx_query fb b1 resp =
      (if resp.getD 0 0 ≠ 1 ∨ resp.getD 1 0 ≠ 0x81 ∨ resp.getD 2 0 ≠ b1 then
        { acts := [Action.sendReport 0x10 [fb, 0x81, b1, 0, 0, 0] 6, Action.queryReport 0x10 6,
                   Action.print (badAnswerMsg (resp.getD 0 0) (resp.getD 1 0) (resp.getD 2 0))],
          ok := false, res := resp }
      else
        { acts := [Action.sendReport 0x10 [fb, 0x81, b1, 0, 0, 0] 6, Action.queryReport 0x10 6],
          ok := true, res := resp }) := rfl
  refine ⟨?_, ?_, ?_, ⟨_, rfl⟩, ⟨_, rfl⟩⟩
  · rw [e]
    split_ifs <;> rfl
  · intro hbad
    rw [e, if_pos hbad]
    exact ⟨rfl, rfl⟩
  · intro hgood
    rw [e, if_neg (by push_neg; exact ⟨hgood.1, hgood.2.1, hgood.2.2⟩)]
    exact ⟨rfl, rfl, rfl⟩

theorem c2_query_echo_validation_witness :
    (mx_query 1 8 [0, 0, 0, 0, 0, 0]).ok = false ∧
    (mx_query 1 8 [1, 0x81, 8, 0, 0, 1]).ok = true :=
  ⟨((c2_query_echo_validation 1 8 [0, 0, 0, 0, 0, 0]).2.1 (by decide)).1,
   ((c2_query_echo_validation 1 8 [1, 0x81, 8, 0, 0, 1]).2.2.1 (by decide)).1⟩

/-- C3 counterexample: the claim reads the battery status from byte4, but the
code switches on byte5; the response frame with byte3 = 42 and byte4 = 0x50
(and byte5 = 0) named by the claim renders as "status 00", not "charging". -/
theorem c3_counterexample :
    configStep 1 (cstr "battery") [1, 0x81, 0x0d, 42, 0x50, 0] =
      .ok [Action.sendReport 0x10 [1, 0x81, 0x0d, 0, 0, 0] 6, Action.queryReport 0x10 6,
           Action.print "battery level 42%, status 00"] ∧
    "battery level 42%, status 00" ≠ "battery level 42%, charging" :=
  ⟨rfl, by decide⟩

/-- C3 (amended): after a validated battery query, the percentage is rendered
from byte3 and the status string from byte5 (0x30 running on battery, 0x50
charging, 0x90 fully charged, else a hex status); a frame with byte3 = 42 and
byte5 = 0x50 renders as "battery level 42%, charging". -/
theorem c3_battery_decode (fb pct b4 st : Int) :
    (st ≠ 0x30 → st ≠ 0x50 → st ≠ 0x90 → batteryStatus st = "status " ++ hex02 st) ∧
    batteryStatus 0x30 = "running on battery" ∧
    batteryStatus 0x50 = "charging" ∧
    batteryStatus 0x90 = "fully charged" ∧
    configStep fb (cstr "battery") [1, 0x81, 0x0d, pct, b4, st] =
      .ok [Action.sendReport 0x10 [fb, 0x81, 0x0d, 0, 0, 0] 6, Action.queryReport 0x10 6,
           Action.print ("battery level " ++ toString pct ++ "%, " ++ batteryStatus st)] ∧
    configStep fb (cstr "battery") [1, 0x81, 0x0d, 42, b4, 0x50] =
      .ok [Action.sendReport 0x10 [fb, 0x81, 0x0d, 0, 0, 0] 6, Action.queryReport 0x10 6,
           Action.print "battery level 42%, charging"] := by
  refine ⟨?_, rfl, rfl, rfl, rfl, rfl⟩
  intro h1 h2 h3
  unfold batteryStatus
  rw [if_neg h1, if_neg h2, if_neg h3]

theorem c3_battery_decode_witness :
    batteryStatus 7 = "status " ++ hex02 7 :=
  (c3_battery_decode 1 0 0 7).1 (by decide) (by decide) (by decide)

/-- C4: `manual=3` encodes button 3 for both directions with single-button
opcode 8 (plus the permanence bit) and the button id as param1, while
`manual=3,5` uses two-button opcode 7 with the buttons packed as
`(3 << 4) | 5`; the equal-argument and distinct-argument cases always diverge
exactly this way. -/
theorem c4_manual_encoding (fb : Int) (r : List Int) :
    configStep fb (cstr "manual=3") r = .ok [mx_cmd fb 0x88 3 0] ∧
    configStep fb (cstr "manual=3,5") r = .ok [mx_cmd fb 0x87 53 0] ∧
    (∀ sfx a1 a2, twoargs sfx 0 0 15 = .ok (a1, a2) → a1 ≠ a2 →
      configStep fb (cstr "manual" ++ sfx) r = .ok [mx_cmd fb (0x80 + 7) (a1 * 16 + a2) 0]) ∧
    (∀ sfx a1 a2, twoargs sfx 0 0 15 = .ok (a1, a2) → a1 = a2 →
      configStep fb (cstr "manual" ++ sfx) r = .ok [mx_cmd fb (0x80 + 8) a1 0]) := by
  refine ⟨rfl, rfl, ?_, ?_⟩
  · intro sfx a1 a2 htwo hne
    rw [configStep_manual_sfx fb r sfx, caseTwo_ok a1 a2 _ htwo]
    exact if_pos hne
  · intro sfx a1 a2 htwo heq
    rw [configStep_manual_sfx fb r sfx, caseTwo_ok a1 a2 _ htwo]
    exact if_neg (fun hc => hc heq)

theorem c4_manual_encoding_witness :
    configStep 1 (cstr "manual" ++ cstr "=3,5") [] = .ok [mx_cmd 1 0x87 53 0] :=
  (c4_manual_encoding 1 []).2.2.1 (cstr "=3,5") 3 5 (by rfl) (by decide)

/-- C5: `auto=10,20` yields params 10 and 20, `auto=10` yields 10 and 10 (the
omitted second field copies the first parsed value), and `auto` alone yields
0 and 0. -/
theorem c5_auto_defaults (fb : Int) (r : List Int) :
    configStep fb (cstr "auto=10,20") r = .ok [mx_cmd fb 0x85 10 20] ∧
    configStep fb (cstr "auto=10") r = .ok [mx_cmd fb 0x85 10 10] ∧
    configStep fb (cstr "auto") r = .ok [mx_cmd fb 0x85 0 0] ∧
    (∀ s d mn mx a1, onearg s '=' d mn mx = .ok (a1, []) →
      twoargs s d mn mx = .ok (a1, a1)) := by
  refine ⟨rfl, rfl, rfl, ?_⟩
  intro s d mn mx a1 h
  unfold twoargs
  rw [h]
  rfl

theorem c5_auto_defaults_witness :
    twoargs (cstr "=10") 0 0 50 = .ok (10, 10) :=
  (c5_auto_defaults 1 []).2.2.2 (cstr "=10") 0 0 50 10 (by rfl)

set_option maxRecDepth 8000 in
/-- C10: for the raw token with no numeric fields, `nargs` returns a field
count of 0 with the buffer defaulted to zeros, and the program then calls
`send_report` with report id 0 and value count -1; the negative count reaches
the report channel, whose copy loop then copies no values. -/
theorem c10_raw_negative_count (fb : Int) (r : List Int) :
    nargs [] 256 0 0 255 = .ok (0, List.replicate 256 0) ∧
    configStep fb (cstr "raw") r = .ok [Action.sendReport 0 (List.replicate 255 0) (-1)] ∧
    send_report_values (List.replicate 255 0) (-1) = [] := by
  refine ⟨?_, ?_, rfl⟩
  · rfl
  · rfl

/-- C1 counterexample: the claim asserts that soft-free uses fixed opcode 3
"regardless of prefix", but a temp- prefixed soft-free is matched against the
unstripped token and falls through to the unknown-option fatal: no frame is
emitted at all. -/
theorem c1_counterexample :
    configStep 1 (cstr "temp-soft-free") [] =
      Except.error (unknownMsg (cstr "temp-soft-free")) ∧
    configStep 1 (cstr "temp-soft-free") [] ≠ Except.ok [mx_cmd 1 3 0 0] := by
  have h : configStep 1 (cstr "temp-soft-free") [] =
      Except.error (unknownMsg (cstr "temp-soft-free")) := rfl
  refine ⟨h, ?_⟩
  rw [h]
  intro hc
  exact Except.noConfusion hc

/-- C1 (amended): every mode-setting token that is accepted emits exactly the
6-byte frame `[leading_byte, 0x80, 0x56, opcode, param1, param2]` as report
0x10, with opcode = base opcode + 0x80 unless the token carried a temp-
prefix (then nothing is added) — except soft-free and soft-click, which use
fixed opcodes 3 and 4 with no permanence bit in their unprefixed form; their
temp- prefixed forms are rejected as unknown options. -/
theorem c1_frame_encoding (fb : Int) (r : List Int) :
    (configStep fb (cstr "free") r = .ok [mx_cmd fb (0x80 + 1) 0 0] ∧
     configStep fb (cstr "temp-free") r = .ok [mx_cmd fb 1 0 0] ∧
     configStep fb (cstr "click") r = .ok [mx_cmd fb (0x80 + 2) 0 0] ∧
     configStep fb (cstr "temp-click") r = .ok [mx_cmd fb 2 0 0]) ∧
    (∀ sfx a1 a2, twoargs sfx 0 0 15 = .ok (a1, a2) →
      (a1 ≠ a2 →
        configStep fb (cstr "manual" ++ sfx) r =
          .ok [mx_cmd fb (0x80 + 7) (a1 * 16 + a2) 0] ∧
        configStep fb (cstr "temp-manual" ++ sfx) r = .ok [mx_cmd fb 7 (a1 * 16 + a2) 0]) ∧
      (a1 = a2 →
        configStep fb (cstr "manual" ++ sfx) r = .ok [mx_cmd fb (0x80 + 8) a1 0] ∧
        configStep fb (cstr "temp-manual" ++ sfx) r = .ok [mx_cmd fb 8 a1 0])) ∧
    (∀ sfx a1 a2, twoargs sfx 0 0 50 = .ok (a1, a2) →
      configStep fb (cstr "auto" ++ sfx) r = .ok [mx_cmd fb (0x80 + 5) a1 a2] ∧
      configStep fb (cstr "temp-auto" ++ sfx) r = .ok [mx_cmd fb 5 a1 a2]) ∧
    (∀ sfx a1 a2, twoargs sfx 0 0 255 = .ok (a1, a2) →
      configStep fb (cstr "soft-free" ++ sfx) r = .ok [mx_cmd fb 3 a1 a2] ∧
      configStep fb (cstr "soft-click" ++ sfx) r = .ok [mx_cmd fb 4 a1 a2]) ∧
    (configStep fb (cstr "temp-soft-free") r =
       .error (unknownMsg (cstr "temp-soft-free")) ∧
     configStep fb (cstr "temp-soft-click") r =
       .error (unknownMsg (cstr "temp-soft-click"))) := by
  refine ⟨⟨rfl, rfl, rfl, rfl⟩, ?_, ?_, ?_, ⟨rfl, rfl⟩⟩
  · intro sfx a1 a2 htwo
    constructor
    · intro hne
      constructor
      · rw [configStep_manual_sfx fb r sfx, caseTwo_ok a1 a2 _ htwo]
        exact if_pos hne
      · rw [configStep_temp_manual_sfx fb r sfx, caseTwo_ok a1 a2 _ htwo]
        exact if_pos hne
    · intro heq
      constructor
      · rw [configStep_manual_sfx fb r sfx, caseTwo_ok a1 a2 _ htwo]
        exact if_neg (fun hc => hc heq)
      · rw [configStep_temp_manual_sfx fb r sfx, caseTwo_ok a1 a2 _ htwo]
        exact if_neg (fun hc => hc heq)
  · intro sfx a1 a2 htwo
    constructor
    · rw [configStep_auto_sfx fb r sfx, caseTwo_ok a1 a2 _ htwo]
    · rw [configStep_temp_auto_sfx fb r sfx, caseTwo_ok a1 a2 _ htwo]
  · intro sfx a1 a2 htwo
    constructor
    · rw [configStep_soft_free_sfx fb r sfx, caseTwo_ok a1 a2 _ htwo]
    · rw [configStep_soft_click_sfx fb r sfx, caseTwo_ok a1 a2 _ htwo]

theorem c1_frame_encoding_witness :
    configStep 1 (cstr "auto" ++ cstr "=10,20") [] = .ok [mx_cmd 1 (0x80 + 5) 10 20] :=
  (((c1_frame_encoding 1 []).2.2.1 (cstr "=10,20") 10 20 (by rfl)).1)

/-- C6: out-of-range numeric fields — `manual=16` (buttons range 0-15) and
`auto=51` (speeds range 0-50) — make argument parsing terminate the process
with an error message and exit code 1 before any report is sent for that
token. -/
theorem c6_range_errors (fb : Int) (r : List Int) :
    configStep fb (cstr "manual=16") r = .error (rangeMsg (cstr "16") 0 15) ∧
    configStep fb (cstr "auto=51") r = .error (rangeMsg (cstr "51") 0 50) ∧
    (∀ post, configureRun fb ((cstr "manual=16", r) :: post) =
        ⟨[], some (rangeMsg (cstr "16") 0 15)⟩ ∧
      runExit fb ((cstr "manual=16", r) :: post) = 1) ∧
    (∀ post, configureRun fb ((cstr "auto=51", r) :: post) =
        ⟨[], some (rangeMsg (cstr "51") 0 50)⟩ ∧
      runExit fb ((cstr "auto=51", r) :: post) = 1) ∧
    (∀ (s : List Char) (c : Char) (d mn mx : Int), (strtol s).ndigits ≠ 0 →
      ((strtol s).val < mn ∨ (strtol s).val > mx) →
      onearg (c :: s) c d mn mx =
        .error (rangeMsg (s.take (s.length - (strtol s).rest.length)) mn mx)) := by
  have h1 : configStep fb (cstr "manual=16") r = .error (rangeMsg (cstr "16") 0 15) := rfl
  have h2 : configStep fb (cstr "auto=51") r = .error (rangeMsg (cstr "51") 0 50) := rfl
  refine ⟨h1, h2, ?_, ?_, ?_⟩
  · intro post
    have hrun : configureRun fb ((cstr "manual=16", r) :: post) =
        ⟨[], some (rangeMsg (cstr "16") 0 15)⟩ := by
      simp only [configureRun, h1]
    exact ⟨hrun, by unfold runExit; rw [hrun]; rfl⟩
  · intro post
    have hrun : configureRun fb ((cstr "auto=51", r) :: post) =
        ⟨[], some (rangeMsg (cstr "51") 0 50)⟩ := by
      simp only [configureRun, h2]
    exact ⟨hrun, by unfold runExit; rw [hrun]; rfl⟩
  · intro s c d mn mx hnd hrange
    have e0 : onearg (c :: s) c d mn mx =
        (if c = c then
          (if (strtol s).ndigits = 0 then .ok (d, (strtol s).rest)
           else if (strtol s).val < mn ∨ (strtol s).val > mx then
             .error (rangeMsg (s.take (s.length - (strtol s).rest.length)) mn mx)
           else .ok ((strtol s).val, (strtol s).rest))
         else .error (badArgMsg (c :: s) c)) := rfl
    rw [e0, if_pos rfl, if_neg hnd, if_pos hrange]

theorem c6_range_errors_witness :
    onearg ('=' :: cstr "16") '=' 0 0 15 =
      .error (rangeMsg ((cstr "16").take
        ((cstr "16").length - (strtol (cstr "16")).rest.length)) 0 15) :=
  (c6_range_errors 1 []).2.2.2.2 (cstr "16") '=' 0 0 15 (by decide) (by decide)

/-- C7: a token sequence containing an unrecognized token terminates with the
unknown-option fatal and exit code 1 at the first such token; no report is
sent for it or any later token, while every earlier token has already been
dispatched and its reports sent. -/
theorem c7_unknown_token_aborts (fb : Int) (pre : List (List Char × List Int))
    (bad : List Char) (rb : List Int) (post : List (List Char × List Int))
    (hok : ∀ tr ∈ pre, ∃ acts, configStep fb tr.1 tr.2 = .ok acts)
    (hbad : recognizedTok bad = false) :
    configStep fb bad rb = .error (unknownMsg bad) ∧
    configureRun fb (pre ++ (bad, rb) :: post) =
      ⟨(configureRun fb pre).trace, some (unknownMsg bad)⟩ ∧
    (configureRun fb pre).fatalMsg = none ∧
    runExit fb (pre ++ (bad, rb) :: post) = 1 := by
  obtain ⟨h1, h2⟩ := configureRun_append_fatal fb pre bad rb post hok hbad
  refine ⟨configStep_unknown fb bad rb hbad, h1, h2, ?_⟩
  unfold runExit
  rw [h1]
  rfl

theorem c7_unknown_token_aborts_witness :
    configureRun 1 ([(cstr "free", [])] ++ (cstr "foo", []) :: [(cstr "click", [])]) =
      ⟨[mx_cmd 1 0x81 0 0], some (unknownMsg (cstr "foo"))⟩ ∧
    runExit 1 ([(cstr "free", [])] ++ (cstr "foo", []) :: [(cstr "click", [])]) = 1 := by
  have h := c7_unknown_token_aborts 1 [(cstr "free", [])] (cstr "foo") [] [(cstr "click", [])]
    (by intro tr htr
        rw [List.mem_singleton] at htr
        subst htr
        exact ⟨[mx_cmd 1 0x81 0 0], rfl⟩)
    (by decide)
  refine ⟨?_, h.2.2.2⟩
  rw [h.2.1]
  rfl

/-- C8 counterexample: the claim says every recognized token accepts a temp-
prefix, but `mode` is recognized while `temp-mode` is rejected as an unknown
option. -/
theorem c8_counterexample :
    configStep 1 (cstr "temp-mode") [] = .error (unknownMsg (cstr "temp-mode")) ∧
    recognizedTok (cstr "mode") = true ∧
    recognizedTok (cstr "temp-mode") = false :=
  ⟨rfl, rfl, rfl⟩

/-- C8 (amended): only free, click, manual and auto are matched against the
temp-stripped text (so their temp- prefixed forms are accepted, recording the
permanence flag); soft-free, soft-click, reconnect, mode, battery, raw,
query, dump and sleep are matched against the unstripped token, so their
temp- prefixed forms are rejected as unknown options. -/
theorem c8_temp_prefix_handling (fb : Int) (r : List Int) :
    (∃ a, configStep fb (cstr "temp-free") r = .ok a) ∧
    (∃ a, configStep fb (cstr "temp-click") r = .ok a) ∧
    (∃ a, configStep fb (cstr "temp-manual") r = .ok a) ∧
    (∃ a, configStep fb (cstr "temp-auto") r = .ok a) ∧
    configStep fb (cstr "temp-soft-click") r =
      .error (unknownMsg (cstr "temp-soft-click")) ∧
    configStep fb (cstr "temp-reconnect") r = .error (unknownMsg (cstr "temp-reconnect")) ∧
    configStep fb (cstr "temp-battery") r = .error (unknownMsg (cstr "temp-battery")) ∧
    configStep fb (cstr "temp-raw") r = .error (unknownMsg (cstr "temp-raw")) ∧
    configStep fb (cstr "temp-query") r = .error (unknownMsg (cstr "temp-query")) ∧
    configStep fb (cstr "temp-dump") r = .error (unknownMsg (cstr "temp-dump")) ∧
    configStep fb (cstr "temp-sleep") r = .error (unknownMsg (cstr "temp-sleep")) :=
  ⟨⟨_, rfl⟩, ⟨_, rfl⟩, ⟨_, rfl⟩, ⟨_, rfl⟩, rfl, rfl, rfl, rfl, rfl, rfl, rfl⟩

/-- C9: enumeration scans indices 0..15 in order and returns the first node
whose vendor is the Logitech constant and whose product is whitelisted,
tagged with leading byte 1 (or 2 with a notice for the MX-5500); every
opened non-matching node is closed immediately; if nothing matches on either
path template the process runs the diagnostics and exits with status 1. -/
theorem c9_device_enumeration (nodes : Nat → Node) :
    (∀ i fb, i < 16 → devMatch (nodes i) = some fb →
      (∀ j, j < i → devMatch (nodes j) = none) →
      (open_dev nodes).2 = some (i, fb) ∧
        (fb = 2 → DevEvent.note ∈ (open_dev nodes).1)) ∧
    wellClosed (open_dev nodes).1 ((open_dev nodes).2.map Prod.fst) = true ∧
    ((∀ j, j < 16 → devMatch (nodes j) = none) → (open_dev nodes).2 = none) ∧
    (∀ (n2 : Nat → Node) (ts : TsProbe) (args : List (List Char × List Int)),
      (∀ j, j < 16 → devMatch (nodes j) = none) →
      (∀ j, j < 16 → devMatch (n2 j) = none) →
      main_run nodes n2 ts args = 1) := by
  refine ⟨?_, openDevAux_wellClosed nodes 16 0, ?_, ?_⟩
  · intro i fb hi hm hnone
    exact openDevAux_found nodes 16 0 i fb (Nat.zero_le i) (by omega) hm
      (fun j _ hj => hnone j hj)
  · intro hall
    exact openDevAux_none nodes 16 0 (fun j _ hj => hall j (by omega))
  · intro n2 ts args hall1 hall2
    have hn1 : (open_dev nodes).2 = none :=
      openDevAux_none nodes 16 0 (fun j _ hj => hall1 j (by omega))
    have hn2 : (open_dev n2).2 = none :=
      openDevAux_none n2 16 0 (fun j _ hj => hall2 j (by omega))
    unfold main_run
    rw [hn1, hn2]
    cases ts <;> rfl

/-- Sample enumeration environment: index 0 opens but yields no device info,
index 1 is a Logitech device outside the whitelist, index 2 is an MX-5500. -/
def nodesW : Nat → Node := fun i =>
  if i = 0 then Node.noInfo
  else if i = 1 then Node.dev 0x046d 0x1234
  else if i = 2 then Node.dev 0x046d 0xc71c
  else Node.absent

/-- Enumeration environment with no device anywhere. -/
def nodesNone : Nat → Node := fun _ => Node.absent

theorem c9_device_enumeration_witness :
    ((open_dev nodesW).2 = some (2, 2) ∧ DevEvent.note ∈ (open_dev nodesW).1) ∧
    main_run nodesNone nodesNone TsProbe.missing [] = 1 := by
  constructor
  · have h := (c9_device_enumeration nodesW).1 2 2 (by omega) (by decide) (by decide)
    exact ⟨h.1, h.2 rfl⟩
  · exact (c9_device_enumeration nodesNone).2.2.2 nodesNone TsProbe.missing []
      (by decide) (by decide)

end Revoco

